import Mathlib

/-!
Verification of the four.meme batch bot (`src/core/blockchain_utils.py`,
`src/core/four_meme_bot.py`, `src/core/utils.py`, `src/batch_runner.py`).

The Python code is shallowly embedded: every chain / HTTP interaction is an
external effect, so each function takes the outcome the external world would
deliver for the calls it makes as an explicit argument, and returns both the
Python result value (dict fields become `Option`-valued structure fields, a
never-written key is a field that stays `none`) and the list of on-chain
transactions it submitted (`send_raw_transaction` calls), in order.
Python floats are modelled as `ℚ` and `int(·)` as truncation toward zero.
-/

namespace FourMeme

/-- Python `int(q)` on a nonnegative/any rational: truncation toward zero. -/
def ratTrunc (q : ℚ) : Int := q.num.tdiv q.den

/-- `web3.to_wei(amount, "ether")`: BNB amount to wei (exact for the decimal
amounts the bot handles). -/
def weiOfEther (q : ℚ) : Int := ratTrunc (q * 10 ^ 18)

/-- `int(amount * (10 ** decimals))` from `_sell_token` / `approve_token`. -/
def token_amount_wei (amount : ℚ) (decimals : Nat) : Int :=
  ratTrunc (amount * 10 ^ decimals)

/-- `_sell_token` base-unit amount: quantised to a multiple of `10^9` when the
token has 18 decimals (`amount_wei = (amount_wei // 1000000000) * 1000000000`,
Python `//` is floor division). -/
def sell_quantized_wei (amount : ℚ) (decimals : Nat) : Int :=
  let w := token_amount_wei amount decimals
  if decimals = 18 then (w.fdiv 1000000000) * 1000000000 else w

/-- `TokenManagerHelper3` contract address (`BlockchainManager.TOKEN_MANAGER_ADDRESS`). -/
def TOKEN_MANAGER_ADDRESS : String := "0x5c952063c7fc8610FFDB798152D69F0B9550762b"

/-- An on-chain transaction submitted through `send_raw_transaction`.
`value` is the native BNB attached to the call. -/
inductive Tx where
  /-- `createToken(args, signature)` from `_create_token_only`. -/
  | createTok (value : Int)
  /-- `buyTokenAMAP(token, funds, minAmount)` from `_buy_token`. -/
  | buyTok (token : String) (funds : Int) (minAmount : Int) (value : Int)
  /-- ERC20 `approve(spender, amountWei)` from `approve_token`. -/
  | approveTok (token : String) (spender : String) (amountWei : Int)
  /-- `sellToken(token, amountWei)` from `_sell_token`. -/
  | sellTok (token : String) (amountWei : Int) (value : Int)
deriving DecidableEq

def Tx.isCreate : Tx → Bool
  | .createTok _ => true
  | _ => false

def Tx.isBuy : Tx → Bool
  | .buyTok _ _ _ _ => true
  | _ => false

def Tx.isSellFlow : Tx → Bool
  | .approveTok _ _ _ => true
  | .sellTok _ _ _ => true
  | _ => false

def Tx.valueOf : Tx → Int
  | .createTok v => v
  | .buyTok _ _ _ v => v
  | .approveTok _ _ _ => 0
  | .sellTok _ _ v => v

/-- What the external world does with one transaction-submitting helper call:
an exception before `send_raw_transaction` (nonce / gas-price fetch, hex
decode, `decimals()` call, ...), an exception after the send (revert, receipt
timeout: `wait_for_transaction` raises), or a confirmed receipt. -/
inductive SubmitOutcome where
  | failBeforeSend (msg : String)
  | failAfterSend (txHash : String) (msg : String)
  | confirmed (txHash : String) (blockNumber : Nat) (gasUsed : Nat)
deriving DecidableEq

/-- Result dict of the `BlockchainManager` helpers (`_create_token_only`,
`_buy_token`, `create_token_on_chain`, `approve_token`): absent keys are
`none`. -/
structure ChainResult where
  success : Bool := false
  tx_hash : Option String := none
  buy_tx_hash : Option String := none
  block_number : Option Nat := none
  gas_used : Option Nat := none
  token_address : Option String := none
  purchase_amount : Option ℚ := none
  error : Option String := none
deriving DecidableEq

/-- `BlockchainManager._create_token_only`: builds the creation transaction
with `value = 0`, sends it, waits for the receipt and parses the new token
address (`parsed`, `None` when the `TokenCreate` event is absent).  Any raised
exception is caught and turned into a failure dict. -/
def create_token_only (out : SubmitOutcome) (parsed : Option String) :
    ChainResult × List Tx :=
  match out with
  | .failBeforeSend msg => ({ success := false, error := some msg }, [])
  | .failAfterSend _ msg => ({ success := false, error := some msg }, [Tx.createTok 0])
  | .confirmed h b g =>
      ({ success := true, tx_hash := some h, block_number := some b,
         gas_used := some g, token_address := parsed }, [Tx.createTok 0])

/-- `BlockchainManager._buy_token`: one `buyTokenAMAP(token, wei, 0)` call with
`value = wei`, `wei = to_wei(purchase_amount, "ether")`. -/
def buy_token (token : String) (purchase_amount : ℚ) (out : SubmitOutcome) :
    ChainResult × List Tx :=
  let wei := weiOfEther purchase_amount
  match out with
  | .failBeforeSend msg => ({ success := false, error := some msg }, [])
  | .failAfterSend _ msg =>
      ({ success := false, error := some msg }, [Tx.buyTok token wei 0 wei])
  | .confirmed h b g =>
      ({ success := true, tx_hash := some h, block_number := some b,
         gas_used := some g }, [Tx.buyTok token wei 0 wei])

/-- `BlockchainManager.create_token_on_chain`: create first; abort with the
specific no-token-address error when the receipt yielded no address; then, only
when `purchase_amount > 0`, a second dependent buy transaction, merging the two
results (`success` is the buy success, creation hash / token address kept). -/
def create_token_on_chain (purchase_amount : ℚ) (createOut : SubmitOutcome)
    (parsed : Option String) (buyOut : SubmitOutcome) : ChainResult × List Tx :=
  let cr := create_token_only createOut parsed
  if cr.1.success then
    match cr.1.token_address with
    | none => ({ success := false, error := some "未获取到代币地址" }, cr.2)
    | some token =>
      if purchase_amount > 0 then
        let br := buy_token token purchase_amount buyOut
        ({ success := br.1.success,
           tx_hash := cr.1.tx_hash,
           buy_tx_hash := br.1.tx_hash,
           block_number := cr.1.block_number,
           gas_used := some (cr.1.gas_used.getD 0 + br.1.gas_used.getD 0),
           token_address := some token,
           purchase_amount := some purchase_amount,
           error := if br.1.success then none
                    else some ("创建成功但购买失败: " ++ br.1.error.getD "None") },
         cr.2 ++ br.2)
      else cr
  else cr

/-- Outcome of the API phase of `FourMemeBot.create_token_complete`
(login → optional image upload → token-creation request).  Each failing call
raises; the orchestrator's outer `except` converts the exception text into the
result's `error`.  `createOk` carries the `createArg` / `signature` fields of
the service response (`none` models an absent or falsy value). -/
inductive ApiPhase where
  | loginFail (msg : String)
  | uploadFail (msg : String)
  | createFail (msg : String)
  | createOk (createArg : Option String) (signature : Option String)
deriving DecidableEq

/-- Result dict of `FourMemeBot.create_token_complete`.  The key
`purchase_tx` is never written anywhere in the source, so the field is
constantly `none`; `BatchRunner.process_wallet` tests membership of that key,
which is `purchase_tx.isSome` here. -/
structure BotResult where
  success : Bool := false
  blockchain_result : Option ChainResult := none
  error : Option String := none
  token_address : Option String := none
  tx_hash : Option String := none
  purchase_amount : Option ℚ := none
  create_arg : Option String := none
  signature : Option String := none
  purchase_tx : Option String := none
deriving DecidableEq

/-- `FourMemeBot.create_token_complete`: API phase, then (when deployment is
enabled and the blockchain manager initialised) `create_token_on_chain` via
`deploy_to_blockchain`.  On chain success the top level copies
`token_address` / `tx_hash`; on chain failure only `error` is set and those
values stay absent at the top level. -/
def create_token_complete (api : ApiPhase) (deploy_on_chain : Bool)
    (mgrPresent : Bool) (purchase_amount : ℚ) (createOut : SubmitOutcome)
    (parsed : Option String) (buyOut : SubmitOutcome) : BotResult × List Tx :=
  match api with
  | .loginFail msg => ({ error := some msg }, [])
  | .uploadFail msg => ({ error := some msg }, [])
  | .createFail msg => ({ error := some msg }, [])
  | .createOk arg sig =>
    if deploy_on_chain && mgrPresent then
      if arg.isNone || sig.isNone then
        ({ error := some "API返回的部署参数不完整" }, [])
      else
        let bc := create_token_on_chain purchase_amount createOut parsed buyOut
        if bc.1.success then
          ({ success := true, blockchain_result := some bc.1,
             token_address := bc.1.token_address, tx_hash := bc.1.tx_hash,
             purchase_amount := some purchase_amount }, bc.2)
        else
          ({ success := false, blockchain_result := some bc.1,
             error := some ("区块链部署失败: " ++ bc.1.error.getD "None") }, bc.2)
    else
      ({ success := true, create_arg := arg, signature := sig }, [])

/-- `FourMemeBot.get_wallet_balance`: `None` when the blockchain manager was
never initialised or when `get_balance` raises (`rpcBalance = none`). -/
def get_wallet_balance (mgrPresent : Bool) (rpcBalance : Option ℚ) : Option ℚ :=
  if mgrPresent then rpcBalance else none

/-- Result of `BlockchainManager.get_token_status` as the sell flow consumes
it: a failure message, or a status name with its `can_trade` classification. -/
inductive StatusRes where
  | statusFail (msg : String)
  | statusOk (statusName : String) (canTrade : Bool)
deriving DecidableEq

/-- External data consumed by one run of `sell_token_complete`: token status,
ERC20 balance (`get_token_balance` returns `0.0` on any RPC failure), token
decimals, and the outcomes of the approve and sell submissions. -/
structure SellEnv where
  status : StatusRes
  balance : ℚ
  decimals : Nat
  approveOut : SubmitOutcome
  sellOut : SubmitOutcome
deriving DecidableEq

/-- Result dict of `BlockchainManager.sell_token_complete`. -/
structure SellResult where
  success : Bool := false
  token_address : Option String := none
  original_balance : Option ℚ := none
  sell_percentage : Option ℚ := none
  sell_amount : Option ℚ := none
  approve_tx_hash : Option String := none
  tx_hash : Option String := none
  block_number : Option Nat := none
  gas_used : Option Nat := none
  error : Option String := none
deriving DecidableEq

/-- `BlockchainManager.approve_token`: ERC20 `approve` of
`int(amount * 10 ** decimals)` base units to the token-manager contract. -/
def approve_token (token : String) (amount : ℚ) (decimals : Nat)
    (out : SubmitOutcome) : ChainResult × List Tx :=
  let wei := token_amount_wei amount decimals
  match out with
  | .failBeforeSend msg => ({ success := false, error := some msg }, [])
  | .failAfterSend _ msg =>
      ({ success := false, error := some msg },
       [Tx.approveTok token TOKEN_MANAGER_ADDRESS wei])
  | .confirmed h b g =>
      ({ success := true, tx_hash := some h, block_number := some b,
         gas_used := some g }, [Tx.approveTok token TOKEN_MANAGER_ADDRESS wei])

/-- `BlockchainManager._sell_token`: `sellToken(token, amountWei)` with
`value = 0`, where `amountWei` is the (18-decimals-quantised) base-unit
amount. -/
def sell_token_inner (token : String) (amount : ℚ) (decimals : Nat)
    (out : SubmitOutcome) : ChainResult × List Tx :=
  let wei := sell_quantized_wei amount decimals
  match out with
  | .failBeforeSend msg => ({ success := false, error := some msg }, [])
  | .failAfterSend _ msg =>
      ({ success := false, error := some msg }, [Tx.sellTok token wei 0])
  | .confirmed h b g =>
      ({ success := true, tx_hash := some h, block_number := some b,
         gas_used := some g }, [Tx.sellTok token wei 0])

/-- `BlockchainManager.sell_token_complete`: status check, balance check,
percentage check, `sell_amount = balance * (percentage / 100)`, approve, then
sell, merging the last two results. -/
def sell_token_complete (token : String) (sell_percentage : ℚ)
    (env : SellEnv) : SellResult × List Tx :=
  match env.status with
  | .statusFail msg =>
      ({ success := false, error := some ("无法获取代币状态: " ++ msg) }, [])
  | .statusOk statusName canTrade =>
    if !canTrade then
      ({ success := false,
         error := some ("代币当前状态不允许交易: " ++ statusName) }, [])
    else if env.balance ≤ 0 then
      ({ success := false, error := some "代币余额为0，无法卖出" }, [])
    else if sell_percentage ≤ 0 ∨ sell_percentage > 100 then
      ({ success := false, error := some "卖出百分比必须在1-100之间" }, [])
    else
      let sell_amount := env.balance * (sell_percentage / 100)
      let ar := approve_token token sell_amount env.decimals env.approveOut
      if !ar.1.success then
        ({ success := false,
           error := some ("代币授权失败: " ++ ar.1.error.getD "None") }, ar.2)
      else
        let sr := sell_token_inner token sell_amount env.decimals env.sellOut
        ({ success := sr.1.success,
           token_address := some token,
           original_balance := some env.balance,
           sell_percentage := some sell_percentage,
           sell_amount := some sell_amount,
           approve_tx_hash := ar.1.tx_hash,
           tx_hash := sr.1.tx_hash,
           block_number := sr.1.block_number,
           gas_used := some (ar.1.gas_used.getD 0 + sr.1.gas_used.getD 0),
           error := if sr.1.success then none else sr.1.error },
         ar.2 ++ sr.2)

/-- `FourMemeBot.sell_token`: guard on the blockchain manager, then the
complete sell flow. -/
def bot_sell_token (mgrPresent : Bool) (token : String) (sell_percentage : ℚ)
    (env : SellEnv) : SellResult × List Tx :=
  if mgrPresent then sell_token_complete token sell_percentage env
  else ({ success := false, error := some "区块链管理器未启用" }, [])

/-- Python `str.split(sep)` on a single character: splits at every occurrence,
keeping empty pieces. -/
def splitCharAux (sep : Char) : List Char → List Char → List (List Char)
  | [], acc => [acc.reverse]
  | c :: rest, acc =>
    if c = sep then acc.reverse :: splitCharAux sep rest []
    else splitCharAux sep rest (c :: acc)

def pySplit (sep : Char) (s : String) : List String :=
  (splitCharAux sep s.data []).map List.asString

/-- Python `str.strip()`: drop leading and trailing whitespace. -/
def pyStrip (s : String) : String :=
  ((s.data.dropWhile Char.isWhitespace).reverse.dropWhile
      Char.isWhitespace).reverse.asString

/-- Python `str.startswith(p)`. -/
def pyStartsWith (p s : String) : Bool := s.data.take p.data.length = p.data

/-- One parsed wallet line (`address;privateKey;purchaseAmount;sellPercentage`),
the dict appended to `wallets` by `BatchRunner.load_wallets_from_file`. -/
structure WalletInfo where
  address : String
  private_key : String
  purchase_amount : ℚ
  sell_percentage : ℚ
  line_num : Nat
deriving DecidableEq

/-- How `load_wallets_from_file` treats one line: silently ignored (blank or
`#` comment), skipped with a logged per-line warning (too few fields, or the
private key fails to parse), or loaded.  An address/derived-address mismatch
is only warned about and the record is still loaded. -/
inductive LineResult where
  | ignored
  | skippedWithWarning
  | loaded (w : WalletInfo)
deriving DecidableEq

/-- `0x`-prefix normalisation of the private-key field. -/
def normalize_key (s : String) : String :=
  if pyStartsWith "0x" s then s else "0x" ++ s

/-- The purchase-amount field of a wallet line: field 3, defaulting to `0`
when absent, blank, or not parseable as a float (`parseRatF` models Python
`float(·)`, `none` = `ValueError`). -/
def parse_purchase (parseRatF : String → Option ℚ) (parts : List String) : ℚ :=
  match (parts.drop 2).head? with
  | none => 0
  | some f =>
    let f := pyStrip f
    if f.isEmpty then 0 else (parseRatF f).getD 0

/-- The sell-percentage field of a wallet line: field 4, defaulting to `100`
when absent, blank, not parseable, or outside `[0, 100]`. -/
def parse_sell (parseRatF : String → Option ℚ) (parts : List String) : ℚ :=
  match (parts.drop 3).head? with
  | none => 100
  | some f =>
    let f := pyStrip f
    if f.isEmpty then 100
    else
      match parseRatF f with
      | none => 100
      | some v => if v < 0 ∨ v > 100 then 100 else v

/-- The body of `load_wallets_from_file`'s per-line loop.  `deriveAddr` models
`CryptoUtils.get_wallet_address_from_private_key` (`none` = the call raised). -/
def parse_wallet_line (deriveAddr : String → Option String)
    (parseRatF : String → Option ℚ) (line_num : Nat) (line : String) :
    LineResult :=
  let s := pyStrip line
  if s.isEmpty || pyStartsWith "#" s then .ignored
  else
    let parts := pySplit ';' s
    if parts.length < 2 then .skippedWithWarning
    else
      let wallet_address := pyStrip (parts.headD "")
      let private_key := normalize_key (pyStrip ((parts.drop 1).headD ""))
      match deriveAddr private_key with
      | none => .skippedWithWarning
      | some _ =>
        .loaded { address := wallet_address, private_key := private_key,
                  purchase_amount := parse_purchase parseRatF parts,
                  sell_percentage := parse_sell parseRatF parts,
                  line_num := line_num }

/-- The record a line contributes to the wallet list, if any. -/
def line_record (deriveAddr : String → Option String)
    (parseRatF : String → Option ℚ) (p : Nat × String) : Option WalletInfo :=
  match parse_wallet_line deriveAddr parseRatF p.1 p.2 with
  | .loaded w => some w
  | _ => none

/-- `BatchRunner.load_wallets_from_file` over the file's lines, numbering them
from 1 (`enumerate(f, 1)`); only loaded records are kept, in file order. -/
def load_wallets_from_file (deriveAddr : String → Option String)
    (parseRatF : String → Option ℚ) (lines : List String) : List WalletInfo :=
  (List.enumFrom 1 lines).filterMap (line_record deriveAddr parseRatF)

/-- Result dict of `BatchRunner.process_wallet`. -/
structure WalletResult where
  wallet_num : Nat
  address : String
  success : Bool := false
  token_address : Option String := none
  token_name : Option String := none
  token_symbol : Option String := none
  image_used : Option String := none
  create_tx : Option String := none
  buy_tx : Option String := none
  sell_tx : Option String := none
  error : Option String := none
  steps_completed : List String := []
deriving DecidableEq

/-- Message of the Python 3 `TypeError` raised by `None < 0.01` (the quote
characters of the runtime text are omitted). -/
def type_err_msg : String :=
  "TypeError: < not supported between instances of NoneType and float"

/-- Text of the insufficient-balance exception raised by `process_wallet`
(the interpolated balance rendered by `toString`). -/
def insufficient_msg (b : ℚ) : String :=
  "钱包余额不足: " ++ toString b ++ " BNB < 0.01 BNB"

/-- External world of one `process_wallet` run: blockchain-manager
initialisation, the `get_balance` RPC, the API phase, the create and (in-flow)
buy outcomes, the follow-up buy outcome issued by the driver itself, and the
sell-flow environment.  `tokenName` / `tokenSymbol` / `imageName` stand for the
randomly generated token config and image pick. -/
structure WalletEnv where
  mgrPresent : Bool
  rpcBalance : Option ℚ
  tokenName : String
  tokenSymbol : String
  imageName : Option String
  api : ApiPhase
  createOut : SubmitOutcome
  parsed : Option String
  buyOut : SubmitOutcome
  buyOut2 : SubmitOutcome
  sellEnv : SellEnv
deriving DecidableEq

/-- `BatchRunner.process_wallet`.  The per-wallet `try/except` turns any raised
exception into a failed result; `balance < 0.01` raises `TypeError` when the
balance is `None`; the creation call runs with `deploy_on_chain=True`; the
follow-up buy runs whenever `purchase_amount > 0` and the key `purchase_tx` is
absent from the creation result (it always is); buy/sell failures after a
successful creation only log a warning, so the run still ends successful. -/
def process_wallet (env : WalletEnv) (w : WalletInfo) (wallet_num : Nat) :
    WalletResult × List Tx :=
  let base : WalletResult := { wallet_num := wallet_num, address := w.address }
  match get_wallet_balance env.mgrPresent env.rpcBalance with
  | none => ({ base with error := some type_err_msg }, [])
  | some b =>
    if b < 1 / 100 then
      ({ base with error := some (insufficient_msg b) }, [])
    else
      let cr := create_token_complete env.api true env.mgrPresent
        w.purchase_amount env.createOut env.parsed env.buyOut
      if !cr.1.success then
        ({ base with
           error := some ("代币创建失败: " ++ cr.1.error.getD "未知错误"),
           steps_completed := ["balance_check"] }, cr.2)
      else
        let r2 : WalletResult := { base with
          token_address := cr.1.token_address,
          token_name := some env.tokenName,
          token_symbol := some env.tokenSymbol,
          image_used := some (env.imageName.getD "None"),
          create_tx := cr.1.tx_hash,
          steps_completed := ["balance_check", "token_created"] }
        let step2 : WalletResult × List Tx :=
          if w.purchase_amount > 0 then
            if cr.1.purchase_tx.isNone then
              let br := buy_token (cr.1.token_address.getD "")
                w.purchase_amount env.buyOut2
              if br.1.success then
                ({ r2 with
                    buy_tx := br.1.tx_hash,
                    steps_completed := r2.steps_completed ++ ["token_bought"] },
                 br.2)
              else (r2, br.2)
            else
              ({ r2 with
                  buy_tx := cr.1.purchase_tx,
                  steps_completed := r2.steps_completed ++ ["token_bought"] },
               [])
          else (r2, [])
        let r3 := step2.1
        let step3 : WalletResult × List Tx :=
          if w.sell_percentage > 0 then
            let sr := bot_sell_token env.mgrPresent (r3.token_address.getD "")
              w.sell_percentage env.sellEnv
            if sr.1.success then
              ({ r3 with
                  sell_tx := sr.1.tx_hash,
                  steps_completed := r3.steps_completed ++ ["token_sold"] },
               sr.2)
            else (r3, sr.2)
          else (r3, [])
        ({ step3.1 with success := true }, cr.2 ++ step2.2 ++ step3.2)

/-- `BatchRunner.run_batch`'s per-wallet loop: every wallet yields exactly one
result, failures included. -/
def run_batch (pairs : List (WalletEnv × WalletInfo)) : List WalletResult :=
  (List.enumFrom 1 pairs).map fun p => (process_wallet p.2.1 p.2.2 p.1).1

/-- API endpoint paths used by `FourMemeBot`. -/
def NONCE_ENDPOINT : String := "/v1/private/user/nonce/generate"

def LOGIN_ENDPOINT : String := "/v1/private/user/login/dex"

def UPLOAD_ENDPOINT : String := "/v1/private/token/upload"

def CREATE_ENDPOINT : String := "/v1/private/token/create"

/-- HTTP requests (endpoint paths, in order) issued by one call of
`FourMemeBot.login`: one POST to the nonce endpoint (`generate_nonce`), and —
only if the nonce was obtained and the message signing did not raise — one
POST to the login endpoint.  No retry loop exists in either function. -/
def login_requests (nonceOk signOk : Bool) : List String :=
  if nonceOk && signOk then [NONCE_ENDPOINT, LOGIN_ENDPOINT]
  else [NONCE_ENDPOINT]

/-- HTTP requests issued by one call of `FourMemeBot.upload_image`: nothing
when no access token is held (it raises first) or the file fails to open,
otherwise a single POST. -/
def upload_image_requests (hasToken fileOpens : Bool) : List String :=
  if hasToken && fileOpens then [UPLOAD_ENDPOINT] else []

/-- HTTP requests issued by one call of `FourMemeBot.create_token`: a single
POST once an access token is held. -/
def create_token_requests (hasToken : Bool) : List String :=
  if hasToken then [CREATE_ENDPOINT] else []

/-- Fixed retry bound of `APIUtils.make_request` (`max_retries = 3`). -/
def MAX_RETRIES : Nat := 3

/-- Fixed backoff of `APIUtils.make_request` (`time.sleep(1)` between
attempts). -/
def RETRY_DELAY_SECONDS : Nat := 1

/-- Attempt loop of `APIUtils.make_request`: `transport k = true` when the
`k`-th HTTP attempt completes without a `RequestException`.  Returns the
`(method, url)` request list actually issued; the loop stops at the first
success and re-raises after the last failed attempt.  The method is
threaded through untouched: the helper retries POST exactly as it retries
GET. -/
def make_request_go (method url : String) (transport : Nat → Bool) :
    Nat → Nat → List (String × String)
  | 0, _ => []
  | n + 1, k =>
    if transport k then [(method, url)]
    else (method, url) :: make_request_go method url transport n (k + 1)

/-- Requests issued by one `APIUtils.make_request` call. -/
def make_request_trace (method url : String) (transport : Nat → Bool) :
    List (String × String) :=
  make_request_go method url transport MAX_RETRIES 0

/-- Number of `buyTokenAMAP` transactions in a trace. -/
def buyCount (tr : List Tx) : Nat := (tr.filter fun t => t.isBuy).length

/-- Number of `createToken` transactions in a trace. -/
def createCount (tr : List Tx) : Nat := (tr.filter fun t => t.isCreate).length

theorem make_request_go_length_le (m u : String) (tr : Nat → Bool) :
    ∀ (fuel k : Nat), (make_request_go m u tr fuel k).length ≤ fuel := by
  intro fuel
  induction fuel with
  | zero => intro k; simp [make_request_go]
  | succ n ih =>
    intro k
    by_cases h : tr k <;> simp [make_request_go, h]
    have := ih (k + 1)
    omega

/-- C4: the side-effectful client functions (`login` with its nonce call,
`upload_image`, `create_token`) post directly through the session with no
retry loop, so one invocation issues at most one HTTP request per endpoint;
the only retry machinery, `APIUtils.make_request`, stops at the first
transport success and is bounded by the fixed `max_retries = 3` with a fixed
1-second backoff. -/
theorem c4_side_effect_calls_single_request :
    (∀ nOk sOk : Bool, (login_requests nOk sOk).count NONCE_ENDPOINT ≤ 1 ∧
        (login_requests nOk sOk).count LOGIN_ENDPOINT ≤ 1) ∧
    (∀ hT fO : Bool, (upload_image_requests hT fO).length ≤ 1) ∧
    (∀ hT : Bool, (create_token_requests hT).length ≤ 1) ∧
    (∀ (m u : String) (tr : Nat → Bool),
        (make_request_trace m u tr).length ≤ MAX_RETRIES) ∧
    (∀ m u : String, make_request_trace m u (fun _ => true) = [(m, u)]) ∧
    MAX_RETRIES = 3 ∧ RETRY_DELAY_SECONDS = 1 := by
  refine ⟨?_, ?_, ?_, ?_, ?_, rfl, rfl⟩
  · intro nOk sOk; cases nOk <;> cases sOk <;> exact ⟨by decide, by decide⟩
  · intro hT fO; cases hT <;> cases fO <;> decide
  · intro hT; cases hT <;> decide
  · intro m u tr; exact make_request_go_length_le m u tr MAX_RETRIES 0
  · intro m u; rfl

/-- C5: a wallet whose balance is below the `0.01` floor makes `process_wallet`
raise the insufficient-funds exception before any transaction is built: the
wallet result is failed with the insufficient-funds error, no transaction is
submitted, the completed-steps list holds nothing beyond `balance_check`
(in fact it is empty, the raise happens before the marker is appended), and
the batch loop still yields one result per wallet. -/
theorem c5_low_balance_aborts_before_any_tx :
    ∀ (env : WalletEnv) (w : WalletInfo) (n : Nat) (b : ℚ),
      env.mgrPresent = true → env.rpcBalance = some b → b < 1 / 100 →
      (process_wallet env w n).1 =
        { wallet_num := n, address := w.address, success := false,
          error := some (insufficient_msg b) } ∧
      (process_wallet env w n).2 = [] ∧
      (∀ s ∈ (process_wallet env w n).1.steps_completed, s = "balance_check") ∧
      ∀ ps, (run_batch ps).length = ps.length := by
  intro env w n b hm hb hlt
  have h1 : process_wallet env w n =
      ({ wallet_num := n, address := w.address, success := false,
         error := some (insufficient_msg b) }, []) := by
    simp only [process_wallet, get_wallet_balance, hm, hb, if_true]
    rw [if_pos hlt]
  refine ⟨by rw [h1], by rw [h1], ?_, ?_⟩
  · rw [h1]; intro s hs; simp at hs
  · intro ps; simp [run_batch]

def c5_env : WalletEnv :=
  { mgrPresent := true, rpcBalance := some (1 / 1000), tokenName := "T",
    tokenSymbol := "T", imageName := none, api := .loginFail "x",
    createOut := .failBeforeSend "x", parsed := none,
    buyOut := .failBeforeSend "x", buyOut2 := .failBeforeSend "x",
    sellEnv := ⟨.statusFail "x", 0, 18, .failBeforeSend "x", .failBeforeSend "x"⟩ }

def c5_wallet : WalletInfo :=
  { address := "0xW5", private_key := "0xK5", purchase_amount := 0,
    sell_percentage := 100, line_num := 1 }

theorem c5_witness :
    (process_wallet c5_env c5_wallet 1).1 =
      { wallet_num := 1, address := "0xW5", success := false,
        error := some (insufficient_msg (1 / 1000)) } ∧
    (process_wallet c5_env c5_wallet 1).2 = [] :=
  ⟨(c5_low_balance_aborts_before_any_tx c5_env c5_wallet 1 (1 / 1000) rfl rfl
      (by norm_num)).1,
   (c5_low_balance_aborts_before_any_tx c5_env c5_wallet 1 (1 / 1000) rfl rfl
      (by norm_num)).2.1⟩

/-- C6: the creation transaction is always built with `value = 0`; any
purchase happens only through a separate second `buyTokenAMAP` transaction
whose attached value is the purchase amount in wei (and only when
`purchase_amount > 0`), and any buy in the trace strictly follows the single
creation transaction — creation and purchase are never one combined call. -/
theorem c6_creation_value_zero_purchase_separate :
    ∀ (pa : ℚ) (co bo : SubmitOutcome) (parsed : Option String),
      (∀ t ∈ (create_token_on_chain pa co parsed bo).2,
          (t.isCreate = true ∧ t.valueOf = 0) ∨
          (t.isBuy = true ∧ t.valueOf = weiOfEther pa ∧ 0 < pa)) ∧
      (∀ t ∈ (create_token_on_chain pa co parsed bo).2, t.isBuy = true →
          (create_token_on_chain pa co parsed bo).2.head? =
            some (Tx.createTok 0)) := by
  intro pa co bo parsed
  rcases co with m | ⟨h, m⟩ | ⟨h, bn, g⟩ <;> rcases parsed with _ | tok <;>
    rcases bo with m2 | ⟨h2, m2⟩ | ⟨h2, bn2, g2⟩ <;> by_cases hpa : pa > 0 <;>
    simp [create_token_on_chain, create_token_only, buy_token, hpa,
      Tx.isCreate, Tx.isBuy, Tx.valueOf]

theorem c6_witness :
    ((Tx.createTok 0).isCreate = true ∧ (Tx.createTok 0).valueOf = 0) ∨
    ((Tx.createTok 0).isBuy = true ∧ (Tx.createTok 0).valueOf = weiOfEther 1 ∧
      (0 : ℚ) < 1) :=
  (c6_creation_value_zero_purchase_separate 1 (.confirmed "0xc" 1 1)
      (.confirmed "0xb" 2 1) (some "0xT")).1 (Tx.createTok 0)
    (by norm_num [create_token_on_chain, create_token_only, buy_token])

/-- C7: when the confirmed creation receipt contains no `TokenCreate` event
the parser yields `None` (no exception escapes it), and
`create_token_on_chain` fails the whole creation step with the specific
no-token-address error and submits nothing beyond the creation transaction —
in particular it never proceeds to a buy with a missing token address. -/
theorem c7_missing_event_fails_creation_step :
    ∀ (h : String) (bn g : Nat) (pa : ℚ) (bo : SubmitOutcome),
      create_token_on_chain pa (.confirmed h bn g) none bo =
        ({ success := false, error := some "未获取到代币地址" },
         [Tx.createTok 0]) :=
  fun _ _ _ _ _ => rfl

theorem type_err_msg_ne_insufficient (b : ℚ) :
    type_err_msg ≠ insufficient_msg b := by
  intro h
  have h2 : type_err_msg.data.head? = (insufficient_msg b).data.head? := by
    rw [h]
  rw [insufficient_msg, String.data_append, String.data_append,
    List.append_assoc, List.head?_append_of_ne_nil _ (by decide)] at h2
  exact absurd h2 (by decide)

/-- C10: when the blockchain manager failed to initialise or the balance RPC
raises, `get_wallet_balance` returns `None`; `process_wallet` then evaluates
`None < 0.01`, which raises `TypeError`, and the per-wallet handler records a
failed result carrying the type-error message — not an insufficient-funds
message — with no transaction submitted, and the batch loop still yields one
result per wallet. -/
theorem c10_none_balance_becomes_type_error :
    ∀ (env : WalletEnv) (w : WalletInfo) (n : Nat),
      env.mgrPresent = false ∨ env.rpcBalance = none →
      get_wallet_balance env.mgrPresent env.rpcBalance = none ∧
      (process_wallet env w n).1.success = false ∧
      (process_wallet env w n).1.error = some type_err_msg ∧
      (∀ b : ℚ, (process_wallet env w n).1.error ≠ some (insufficient_msg b)) ∧
      (process_wallet env w n).2 = [] ∧
      ∀ ps, (run_batch ps).length = ps.length := by
  intro env w n hcase
  have hg : get_wallet_balance env.mgrPresent env.rpcBalance = none := by
    rcases hcase with h | h <;> simp [get_wallet_balance, h]
  have h1 : process_wallet env w n =
      ({ wallet_num := n, address := w.address,
         error := some type_err_msg }, []) := by
    simp only [process_wallet, hg]
  refine ⟨hg, by rw [h1], by rw [h1], ?_, by rw [h1], ?_⟩
  · intro b hb
    rw [h1] at hb
    simp only [Option.some.injEq] at hb
    exact type_err_msg_ne_insufficient b hb
  · intro ps; simp [run_batch]

def c10_env : WalletEnv :=
  { mgrPresent := false, rpcBalance := some 1, tokenName := "T",
    tokenSymbol := "T", imageName := none, api := .loginFail "x",
    createOut := .failBeforeSend "x", parsed := none,
    buyOut := .failBeforeSend "x", buyOut2 := .failBeforeSend "x",
    sellEnv := ⟨.statusFail "x", 0, 18, .failBeforeSend "x", .failBeforeSend "x"⟩ }

def c10_wallet : WalletInfo :=
  { address := "0xWA", private_key := "0xKA", purchase_amount := 1,
    sell_percentage := 100, line_num := 1 }

theorem c10_witness :
    get_wallet_balance c10_env.mgrPresent c10_env.rpcBalance = none ∧
    (process_wallet c10_env c10_wallet 1).1.error = some type_err_msg :=
  ⟨(c10_none_balance_becomes_type_error c10_env c10_wallet 1 (Or.inl rfl)).1,
   (c10_none_balance_becomes_type_error c10_env c10_wallet 1 (Or.inl rfl)).2.2.1⟩

def c1_env : WalletEnv :=
  { mgrPresent := true, rpcBalance := some (2 / 100), tokenName := "Moon Token",
    tokenSymbol := "MOON42", imageName := none,
    api := .createOk (some "0xarg") (some "0xsig"),
    createOut := .confirmed "0xc1" 100 200000, parsed := some "0xT1",
    buyOut := .confirmed "0xb1" 101 100000,
    buyOut2 := .confirmed "0xb2" 102 100000,
    sellEnv := ⟨.statusOk "TRADING" true, 1000, 18,
      .confirmed "0xa1" 103 5000, .confirmed "0xs1" 104 6000⟩ }

def c1_wallet : WalletInfo :=
  { address := "0xW1", private_key := "0xK1", purchase_amount := 5 / 100,
    sell_percentage := 0, line_num := 1 }

/-- C1: with `purchaseAmount = 0.05 > 0` and a fully successful creation
(and in-flow purchase), the pipeline submits TWO `buyTokenAMAP` transactions
for one successful creation: `create_token_on_chain` buys once, and
`process_wallet` buys again because the key `purchase_tx` is never present in
the `create_token_complete` result, so its created-with-purchase guard always
passes.  The claim (and the source's own dead `else` branch) expect exactly
one. -/
theorem c1_followup_buy_duplicates_purchase :
    buyCount (process_wallet c1_env c1_wallet 1).2 = 2 ∧
    createCount (process_wallet c1_env c1_wallet 1).2 = 1 ∧
    (process_wallet c1_env c1_wallet 1).1.success = true := by
  norm_num [process_wallet, create_token_complete, create_token_on_chain,
    create_token_only, buy_token, get_wallet_balance, c1_env, c1_wallet,
    buyCount, createCount, bot_sell_token, sell_token_complete, Tx.isBuy,
    Tx.isCreate]

def c2_env : WalletEnv :=
  { mgrPresent := true, rpcBalance := some (2 / 100), tokenName := "Moon Token",
    tokenSymbol := "MOON42", imageName := none,
    api := .createOk (some "0xarg") (some "0xsig"),
    createOut := .confirmed "0xc1" 100 200000, parsed := some "0xT1",
    buyOut := .failAfterSend "0xb1" "交易执行失败",
    buyOut2 := .confirmed "0xb2" 102 100000,
    sellEnv := ⟨.statusOk "TRADING" true, 1000, 18,
      .confirmed "0xa1" 103 5000, .confirmed "0xs1" 104 6000⟩ }

def c2_wallet : WalletInfo :=
  { address := "0xW2", private_key := "0xK2", purchase_amount := 5 / 100,
    sell_percentage := 0, line_num := 1 }

/-- C2 as stated is false at this input: creation confirmed (hash `0xc1`,
token parsed) and the dependent buy failed, and the run does terminate with
`success = false`; but the terminal wallet result has lost the creation hash
and token address (both `None`), although the chain-layer merged result
still carried them — the step-`1..k-1` outcomes are not preserved in the
workflow's result. -/
theorem c2_counterexample_create_hash_dropped :
    (process_wallet c2_env c2_wallet 1).1.success = false ∧
    (process_wallet c2_env c2_wallet 1).1.create_tx = none ∧
    (process_wallet c2_env c2_wallet 1).1.token_address = none ∧
    (create_token_on_chain (5 / 100) (.confirmed "0xc1" 100 200000)
        (some "0xT1") (.failAfterSend "0xb1" "交易执行失败")).1.tx_hash =
      some "0xc1" := by
  norm_num [process_wallet, create_token_complete, create_token_on_chain,
    create_token_only, buy_token, get_wallet_balance, c2_env, c2_wallet]

/-- C2 amended: when the dependent buy fails after a successful creation, the
chain-layer merged result does mark the step failed while preserving the
creation hash and token address; but the orchestrator's top-level result
keeps them only inside the nested `blockchain_result` (top-level `tx_hash` /
`token_address` stay absent), and the driver's wallet result ends failed with
`create_tx = None`, `token_address = None` and only the steps completed
before the creation call (`balance_check`) recorded. -/
theorem c2_partial_failure_chain_layer_only :
    ∀ (h tok bh msg arg sig tn ts : String) (bn g : Nat) (pa b : ℚ)
      (img : Option String) (bo2 : SubmitOutcome) (se : SellEnv)
      (w : WalletInfo) (n : Nat),
      0 < pa → ¬ b < 1 / 100 →
      (create_token_on_chain pa (.confirmed h bn g) (some tok)
          (.failAfterSend bh msg)).1.success = false ∧
      (create_token_on_chain pa (.confirmed h bn g) (some tok)
          (.failAfterSend bh msg)).1.tx_hash = some h ∧
      (create_token_on_chain pa (.confirmed h bn g) (some tok)
          (.failAfterSend bh msg)).1.token_address = some tok ∧
      (create_token_complete (.createOk (some arg) (some sig)) true true pa
          (.confirmed h bn g) (some tok) (.failAfterSend bh msg)).1.success =
        false ∧
      (create_token_complete (.createOk (some arg) (some sig)) true true pa
          (.confirmed h bn g) (some tok) (.failAfterSend bh msg)).1.tx_hash =
        none ∧
      (create_token_complete (.createOk (some arg) (some sig)) true true pa
          (.confirmed h bn g) (some tok)
          (.failAfterSend bh msg)).1.token_address = none ∧
      (create_token_complete (.createOk (some arg) (some sig)) true true pa
          (.confirmed h bn g) (some tok)
          (.failAfterSend bh msg)).1.blockchain_result =
        some (create_token_on_chain pa (.confirmed h bn g) (some tok)
          (.failAfterSend bh msg)).1 ∧
      (process_wallet ⟨true, some b, tn, ts, img,
          .createOk (some arg) (some sig), .confirmed h bn g, some tok,
          .failAfterSend bh msg, bo2, se⟩
        { w with purchase_amount := pa } n).1.success = false ∧
      (process_wallet ⟨true, some b, tn, ts, img,
          .createOk (some arg) (some sig), .confirmed h bn g, some tok,
          .failAfterSend bh msg, bo2, se⟩
        { w with purchase_amount := pa } n).1.create_tx = none ∧
      (process_wallet ⟨true, some b, tn, ts, img,
          .createOk (some arg) (some sig), .confirmed h bn g, some tok,
          .failAfterSend bh msg, bo2, se⟩
        { w with purchase_amount := pa } n).1.token_address = none ∧
      (process_wallet ⟨true, some b, tn, ts, img,
          .createOk (some arg) (some sig), .confirmed h bn g, some tok,
          .failAfterSend bh msg, bo2, se⟩
        { w with purchase_amount := pa } n).1.steps_completed =
        ["balance_check"] := by
  intro h tok bh msg arg sig tn ts bn g pa b img bo2 se w n hpa hb
  have hchain : (create_token_on_chain pa (.confirmed h bn g) (some tok)
      (.failAfterSend bh msg)) =
      ({ success := false, tx_hash := some h, buy_tx_hash := none,
         block_number := some bn, gas_used := some g,
         token_address := some tok, purchase_amount := some pa,
         error := some ("创建成功但购买失败: " ++ msg) },
       [Tx.createTok 0,
        Tx.buyTok tok (weiOfEther pa) 0 (weiOfEther pa)]) := by
    simp [create_token_on_chain, create_token_only, buy_token, hpa]
  have hbot : (create_token_complete (.createOk (some arg) (some sig)) true
      true pa (.confirmed h bn g) (some tok) (.failAfterSend bh msg)) =
      ({ success := false,
         blockchain_result := some (create_token_on_chain pa
           (.confirmed h bn g) (some tok) (.failAfterSend bh msg)).1,
         error := some ("区块链部署失败: " ++
           ("创建成功但购买失败: " ++ msg)) },
       [Tx.createTok 0,
        Tx.buyTok tok (weiOfEther pa) 0 (weiOfEther pa)]) := by
    simp [create_token_complete, hchain]
  have hproc : (process_wallet ⟨true, some b, tn, ts, img,
      .createOk (some arg) (some sig), .confirmed h bn g, some tok,
      .failAfterSend bh msg, bo2, se⟩
      { w with purchase_amount := pa } n) =
      ({ wallet_num := n, address := w.address,
         error := some ("代币创建失败: " ++
           ("区块链部署失败: " ++ ("创建成功但购买失败: " ++ msg))),
         steps_completed := ["balance_check"] },
       [Tx.createTok 0,
        Tx.buyTok tok (weiOfEther pa) 0 (weiOfEther pa)]) := by
    simp only [process_wallet, get_wallet_balance, if_true]
    rw [if_neg hb]
    simp [hbot]
  simp [hchain, hbot, hproc]

def c2_w_env : WalletEnv :=
  ⟨true, some 1, "T", "T", none, .createOk (some "0xarg") (some "0xsig"),
   .confirmed "0xc9" 5 7, some "0xT9", .failAfterSend "0xb9" "m",
   .failBeforeSend "x",
   ⟨.statusFail "x", 0, 18, .failBeforeSend "x", .failBeforeSend "x"⟩⟩

def c2_w_wallet : WalletInfo :=
  { address := "0xW9", private_key := "0xK9", purchase_amount := 1,
    sell_percentage := 0, line_num := 1 }

theorem c2_amended_witness :
    (create_token_on_chain 1 (.confirmed "0xc9" 5 7) (some "0xT9")
        (.failAfterSend "0xb9" "m")).1.tx_hash = some "0xc9" ∧
    (process_wallet c2_w_env { c2_w_wallet with purchase_amount := 1 }
        3).1.create_tx = none :=
  ⟨(c2_partial_failure_chain_layer_only "0xc9" "0xT9" "0xb9" "m" "0xarg"
      "0xsig" "T" "T" 5 7 1 1 none (.failBeforeSend "x")
      ⟨.statusFail "x", 0, 18, .failBeforeSend "x", .failBeforeSend "x"⟩
      c2_w_wallet 3 (by norm_num) (by norm_num)).2.1,
   (c2_partial_failure_chain_layer_only "0xc9" "0xT9" "0xb9" "m" "0xarg"
      "0xsig" "T" "T" 5 7 1 1 none (.failBeforeSend "x")
      ⟨.statusFail "x", 0, 18, .failBeforeSend "x", .failBeforeSend "x"⟩
      c2_w_wallet 3 (by norm_num) (by norm_num)).2.2.2.2.2.2.2.2.1⟩

theorem buy_token_no_sellflow (tok : String) (pa : ℚ) (o : SubmitOutcome) :
    ((buy_token tok pa o).2.filter fun t => t.isSellFlow) = [] := by
  rcases o <;> simp [buy_token, Tx.isSellFlow]

theorem create_token_on_chain_no_sellflow (pa : ℚ) (co bo : SubmitOutcome)
    (parsed : Option String) :
    ((create_token_on_chain pa co parsed bo).2.filter fun t =>
      t.isSellFlow) = [] := by
  rcases co <;> rcases parsed <;> rcases bo <;> by_cases hpa : pa > 0 <;>
    simp [create_token_on_chain, create_token_only, buy_token, hpa,
      Tx.isSellFlow]

theorem create_token_complete_trace_eq (api : ApiPhase) (dep mgr : Bool)
    (pa : ℚ) (co : SubmitOutcome) (parsed : Option String)
    (bo : SubmitOutcome) :
    (create_token_complete api dep mgr pa co parsed bo).2 = [] ∨
    (create_token_complete api dep mgr pa co parsed bo).2 =
      (create_token_on_chain pa co parsed bo).2 := by
  rcases api with m | m | m | ⟨a, s⟩
  · exact Or.inl rfl
  · exact Or.inl rfl
  · exact Or.inl rfl
  · simp only [create_token_complete]
    by_cases hd : dep && mgr
    · rw [if_pos hd]
      by_cases hn : a.isNone || s.isNone
      · rw [if_pos hn]; exact Or.inl rfl
      · rw [if_neg hn]
        split <;> exact Or.inr rfl
    · rw [if_neg hd]; exact Or.inl rfl

theorem create_token_complete_no_sellflow (api : ApiPhase)
    (dep mgr : Bool) (pa : ℚ) (co : SubmitOutcome) (parsed : Option String)
    (bo : SubmitOutcome) :
    ((create_token_complete api dep mgr pa co parsed bo).2.filter fun t =>
      t.isSellFlow) = [] := by
  rcases create_token_complete_trace_eq api dep mgr pa co parsed bo with
    h | h
  · rw [h]
    rfl
  · rw [h]
    exact create_token_on_chain_no_sellflow pa co bo parsed

theorem create_token_complete_purchase_tx_none (api : ApiPhase)
    (dep mgr : Bool) (pa : ℚ) (co : SubmitOutcome) (parsed : Option String)
    (bo : SubmitOutcome) :
    (create_token_complete api dep mgr pa co parsed bo).1.purchase_tx =
      none := by
  rcases api with m | m | m | ⟨a, s⟩
  · rfl
  · rfl
  · rfl
  · simp only [create_token_complete]
    split_ifs <;> rfl

theorem process_wallet_no_sellflow_of_nonpos (env : WalletEnv)
    (w : WalletInfo) (n : Nat) (hle : w.sell_percentage ≤ 0) :
    ((process_wallet env w n).2.filter fun t => t.isSellFlow) = [] := by
  have hns : ¬ w.sell_percentage > 0 := not_lt.mpr hle
  rcases hgw : get_wallet_balance env.mgrPresent env.rpcBalance with _ | b
  · simp [process_wallet, hgw]
  · by_cases hb : b < 1 / 100
    · simp only [process_wallet, hgw]
      rw [if_pos hb]
      rfl
    · simp only [process_wallet, hgw]
      rw [if_neg hb]
      cases hs : (create_token_complete env.api true env.mgrPresent
          w.purchase_amount env.createOut env.parsed env.buyOut).1.success
      · simp [create_token_complete_no_sellflow]
      · rw [if_neg hns]
        simp only [Bool.not_true, Bool.false_eq_true, if_false,
          List.filter_append, List.filter_nil, List.append_nil]
        rw [create_token_complete_no_sellflow]
        simp only [List.nil_append]
        split
        · rw [create_token_complete_purchase_tx_none]
          simp only [Option.isNone_none, if_true]
          split <;> simp [buy_token_no_sellflow]
        · rfl

theorem parse_sell_range (pr : String → Option ℚ) (parts : List String) :
    0 ≤ parse_sell pr parts ∧ parse_sell pr parts ≤ 100 := by
  rw [parse_sell]
  rcases h3 : (parts.drop 3).head? with _ | f
  · norm_num
  · simp only [h3]
    by_cases he : (pyStrip f).isEmpty
    · simp [he]
    · simp only [he, Bool.false_eq_true, if_false]
      rcases hv : pr (pyStrip f) with _ | v
      · norm_num
      · by_cases hr : v < 0 ∨ v > 100
        · simp [hr]
        · simp only [hr, if_false]
          push_neg at hr
          exact ⟨hr.1, hr.2⟩

theorem parse_wallet_line_loaded_fields (da : String → Option String)
    (pr : String → Option ℚ) (n : Nat) (line : String) (w : WalletInfo)
    (h : parse_wallet_line da pr n line = .loaded w) :
    w.purchase_amount = parse_purchase pr (pySplit ';' (pyStrip line)) ∧
    w.sell_percentage = parse_sell pr (pySplit ';' (pyStrip line)) ∧
    w.line_num = n := by
  simp only [parse_wallet_line] at h
  split at h
  · exact absurd h (by simp)
  · split at h
    · exact absurd h (by simp)
    · split at h
      · exact absurd h (by simp)
      · rw [LineResult.loaded.injEq] at h
        subst h
        exact ⟨rfl, rfl, rfl⟩

def c3_env : SellEnv :=
  ⟨.statusOk "HALT" false, 1000, 18, .confirmed "0xa3" 1 1,
   .confirmed "0xs3" 2 1⟩

/-- C3 as stated is false at this input: percentage `150` against a halted
token yields a failure result whose error is the not-tradable message, not
the invalid-percentage one (no transaction is built either way). -/
theorem c3_counterexample_not_percentage_error :
    (sell_token_complete "0xT" 150 c3_env).1.success = false ∧
    (sell_token_complete "0xT" 150 c3_env).2 = [] ∧
    (sell_token_complete "0xT" 150 c3_env).1.error =
      some "代币当前状态不允许交易: HALT" ∧
    ("代币当前状态不允许交易: HALT" : String) ≠
      "卖出百分比必须在1-100之间" := by
  refine ⟨by norm_num [sell_token_complete, c3_env],
    by norm_num [sell_token_complete, c3_env], ?_, by decide⟩
  norm_num [sell_token_complete, c3_env]
  decide

/-- C3 amended: a percentage outside `(0, 100]` always produces a failure
result from the complete sell flow before any approval or sell transaction is
built; the error is the invalid-percentage message whenever the preceding
status and balance checks pass (otherwise it is their own error).  Percentages
loaded from wallet-file lines are always within `[0, 100]` (out-of-range
values are replaced by the default `100`), and a non-positive percentage makes
the driver skip the sell flow entirely, so no out-of-range percentage ever
reaches transaction construction. -/
theorem c3_invalid_percentage_rejected_before_tx :
    (∀ (token : String) (p : ℚ) (env : SellEnv), p ≤ 0 ∨ p > 100 →
        (sell_token_complete token p env).2 = [] ∧
        (sell_token_complete token p env).1.success = false ∧
        ∀ nm : String, env.status = .statusOk nm true → 0 < env.balance →
          (sell_token_complete token p env).1.error =
            some "卖出百分比必须在1-100之间") ∧
    (∀ (da : String → Option String) (pr : String → Option ℚ) (n : Nat)
        (line : String) (w : WalletInfo),
        parse_wallet_line da pr n line = .loaded w →
        0 ≤ w.sell_percentage ∧ w.sell_percentage ≤ 100) ∧
    (∀ (env : WalletEnv) (w : WalletInfo) (n : Nat), w.sell_percentage ≤ 0 →
        ((process_wallet env w n).2.filter fun t => t.isSellFlow) = []) := by
  refine ⟨?_, ?_, fun env w n hle =>
    process_wallet_no_sellflow_of_nonpos env w n hle⟩
  · intro token p env hp
    rcases env with ⟨st, bal, d, ao, so⟩
    rcases st with m | ⟨nm0, ct⟩
    · refine ⟨by simp [sell_token_complete], by simp [sell_token_complete],
        ?_⟩
      intro nm hnm
      exact absurd hnm (by simp)
    · rcases ct with _ | _
      · refine ⟨by simp [sell_token_complete], by simp [sell_token_complete],
          ?_⟩
        intro nm hnm
        simp at hnm
      · by_cases hbal : bal ≤ 0
        · refine ⟨by simp [sell_token_complete, hbal],
            by simp [sell_token_complete, hbal], ?_⟩
          intro nm hnm hpos
          exact absurd hpos (by simpa using hbal)
        · exact ⟨by simp [sell_token_complete, hbal, hp],
            by simp [sell_token_complete, hbal, hp],
            fun nm hnm hpos => by simp [sell_token_complete, hbal, hp]⟩
  · intro da pr n line w h
    rw [(parse_wallet_line_loaded_fields da pr n line w h).2.1]
    exact parse_sell_range pr _

def c3_w_env : SellEnv :=
  ⟨.statusOk "TRADING" true, 5, 18, .confirmed "0xa4" 1 1,
   .confirmed "0xs4" 2 1⟩

theorem c3_witness :
    (sell_token_complete "0xT" 150 c3_w_env).2 = [] ∧
    (sell_token_complete "0xT" 150 c3_w_env).1.error =
      some "卖出百分比必须在1-100之间" := by
  have h := c3_invalid_percentage_rejected_before_tx.1 "0xT" 150 c3_w_env
    (Or.inr (by norm_num))
  exact ⟨h.1, h.2.2 "TRADING" rfl (by norm_num [c3_w_env])⟩

/-- C8: for a tradable token with positive balance and a percentage in
`(0,100]`, the sell flow computes `sell_amount = balance * percentage/100`,
approves exactly that amount converted to base units via the token's decimals
to the token-manager contract before any sell transaction (the trace is at
most `[approve, sell]` in that order), and the sell transaction carries the
base-unit amount rounded down to a multiple of `10^9` when the token has 18
decimals. -/
theorem c8_sell_amount_conversion_and_order :
    ∀ (token nm : String) (b p : ℚ) (d : Nat) (ao so : SubmitOutcome),
      0 < b → 0 < p → p ≤ 100 →
      ((sell_token_complete token p ⟨.statusOk nm true, b, d, ao, so⟩).2 =
          [] ∨
       (sell_token_complete token p ⟨.statusOk nm true, b, d, ao, so⟩).2 =
          [Tx.approveTok token TOKEN_MANAGER_ADDRESS
            (token_amount_wei (b * (p / 100)) d)] ∨
       (sell_token_complete token p ⟨.statusOk nm true, b, d, ao, so⟩).2 =
          [Tx.approveTok token TOKEN_MANAGER_ADDRESS
            (token_amount_wei (b * (p / 100)) d),
           Tx.sellTok token (sell_quantized_wei (b * (p / 100)) d) 0]) ∧
      ((sell_token_complete token p
          ⟨.statusOk nm true, b, d, ao, so⟩).1.sell_amount = none ∨
       (sell_token_complete token p
          ⟨.statusOk nm true, b, d, ao, so⟩).1.sell_amount =
          some (b * (p / 100))) ∧
      sell_quantized_wei (b * (p / 100)) 18 =
        ((token_amount_wei (b * (p / 100)) 18).fdiv 1000000000) *
          1000000000 ∧
      (1000000000 : Int) ∣ sell_quantized_wei (b * (p / 100)) 18 ∧
      sell_quantized_wei (b * (p / 100)) 18 ≤
        token_amount_wei (b * (p / 100)) 18 := by
  intro token nm b p d ao so hb hp hple
  have hnb : ¬ b ≤ 0 := not_le.mpr hb
  have hnp : ¬ (p ≤ 0 ∨ p > 100) := by
    push_neg
    exact ⟨hp, hple⟩
  refine ⟨?_, ?_, rfl, ?_, ?_⟩
  · rcases ao with m | ⟨h1, m⟩ | ⟨h1, n1, g1⟩ <;>
      rcases so with m2 | ⟨h2, m2⟩ | ⟨h2, n2, g2⟩ <;>
      simp [sell_token_complete, approve_token, sell_token_inner, hnb, hnp]
  · rcases ao with m | ⟨h1, m⟩ | ⟨h1, n1, g1⟩ <;>
      simp [sell_token_complete, approve_token, sell_token_inner, hnb, hnp]
  · have hq : sell_quantized_wei (b * (p / 100)) 18 =
        ((token_amount_wei (b * (p / 100)) 18).fdiv 1000000000) *
          1000000000 := rfl
    rw [hq]
    exact dvd_mul_left _ _
  · have h0 : (0 : Int) ≤ 1000000000 := by norm_num
    have he : sell_quantized_wei (b * (p / 100)) 18 =
        ((token_amount_wei (b * (p / 100)) 18).fdiv 1000000000) *
          1000000000 := rfl
    rw [he, Int.fdiv_eq_ediv _ h0]
    exact Int.ediv_mul_le _ (by norm_num)

def c8_w_env : SellEnv :=
  ⟨.statusOk "TRADING" true, 2, 18, .confirmed "0xa8" 1 10,
   .confirmed "0xs8" 2 20⟩

theorem c8_witness :
    (sell_token_complete "0xT8" 50 c8_w_env).1.sell_amount = none ∨
    (sell_token_complete "0xT8" 50 c8_w_env).1.sell_amount =
      some (2 * (50 / 100)) :=
  (c8_sell_amount_conversion_and_order "0xT8" "TRADING" 2 50 18
    (.confirmed "0xa8" 1 10) (.confirmed "0xs8" 2 20) (by norm_num)
    (by norm_num) (by norm_num)).2.1

theorem line_record_line_num (da : String → Option String)
    (pr : String → Option ℚ) (p : Nat × String) (w : WalletInfo)
    (h : line_record da pr p = some w) : w.line_num = p.1 := by
  rcases hp : parse_wallet_line da pr p.1 p.2 with _ | _ | v
  · rw [line_record, hp] at h
    exact absurd h (by simp)
  · rw [line_record, hp] at h
    exact absurd h (by simp)
  · rw [line_record, hp] at h
    simp only [Option.some.injEq] at h
    subst h
    exact (parse_wallet_line_loaded_fields da pr p.1 p.2 _ hp).2.2

theorem line_record_eq_some_iff (da : String → Option String)
    (pr : String → Option ℚ) (p : Nat × String) (w : WalletInfo) :
    line_record da pr p = some w ↔
      parse_wallet_line da pr p.1 p.2 = .loaded w := by
  rw [line_record]
  rcases hp : parse_wallet_line da pr p.1 p.2 with _ | _ | v <;> simp

theorem load_line_num_ge (da : String → Option String)
    (pr : String → Option ℚ) :
    ∀ (lines : List String) (k : Nat) (w : WalletInfo),
      w ∈ (List.enumFrom k lines).filterMap (line_record da pr) →
      k ≤ w.line_num := by
  intro lines
  induction lines with
  | nil => intro k w h; simp at h
  | cons l ls ih =>
    intro k w h
    rw [List.enumFrom_cons, List.filterMap_cons] at h
    rcases hl : line_record da pr (k, l) with _ | v
    · rw [hl] at h
      exact le_trans (Nat.le_succ k) (ih (k + 1) w h)
    · rw [hl] at h
      rcases List.mem_cons.mp h with rfl | h2
      · rw [line_record_line_num da pr (k, l) w hl]
      · exact le_trans (Nat.le_succ k) (ih (k + 1) w h2)

theorem load_sorted_from (da : String → Option String)
    (pr : String → Option ℚ) :
    ∀ (lines : List String) (k : Nat),
      List.Sorted (· < ·)
        (((List.enumFrom k lines).filterMap (line_record da pr)).map
          (fun w => w.line_num)) := by
  intro lines
  induction lines with
  | nil => intro k; simp
  | cons l ls ih =>
    intro k
    rw [List.enumFrom_cons, List.filterMap_cons]
    rcases hl : line_record da pr (k, l) with _ | v
    · exact ih (k + 1)
    · simp only [List.map_cons]
      refine List.sorted_cons.mpr ⟨?_, ih (k + 1)⟩
      intro y hy
      rcases List.mem_map.mp hy with ⟨w, hw, rfl⟩
      have h1 := load_line_num_ge da pr ls (k + 1) w hw
      have h2 := line_record_line_num da pr (k, l) v hl
      rw [h2]
      omega

/-- C9: wallet loading ignores blank and `#`-comment lines; lines with fewer
than two `;`-fields, and lines whose private key fails to parse, are skipped
with a per-line warning instead of aborting; a missing, blank or malformed
purchase amount defaults to `0` and a missing, blank or malformed sell
percentage defaults to `100`; the returned list holds exactly the records of
the loaded lines, in file order (line numbers strictly increasing). -/
theorem c9_wallet_loader_behaviour :
    (∀ (da : String → Option String) (pr : String → Option ℚ) (n : Nat)
        (line : String),
        (pyStrip line).isEmpty = true ∨
          pyStartsWith "#" (pyStrip line) = true →
        parse_wallet_line da pr n line = .ignored) ∧
    (∀ (da : String → Option String) (pr : String → Option ℚ) (n : Nat)
        (line : String),
        (pyStrip line).isEmpty = false →
        pyStartsWith "#" (pyStrip line) = false →
        (pySplit ';' (pyStrip line)).length < 2 →
        parse_wallet_line da pr n line = .skippedWithWarning) ∧
    (∀ (da : String → Option String) (pr : String → Option ℚ) (n : Nat)
        (line : String),
        (pyStrip line).isEmpty = false →
        pyStartsWith "#" (pyStrip line) = false →
        ¬ (pySplit ';' (pyStrip line)).length < 2 →
        da (normalize_key (pyStrip
          (((pySplit ';' (pyStrip line)).drop 1).headD ""))) = none →
        parse_wallet_line da pr n line = .skippedWithWarning) ∧
    (∀ (pr : String → Option ℚ) (parts : List String),
        (parts.drop 2).head? = none → parse_purchase pr parts = 0) ∧
    (∀ (pr : String → Option ℚ) (parts : List String) (f : String),
        (parts.drop 2).head? = some f →
        (pyStrip f).isEmpty = true ∨ pr (pyStrip f) = none →
        parse_purchase pr parts = 0) ∧
    (∀ (pr : String → Option ℚ) (parts : List String),
        (parts.drop 3).head? = none → parse_sell pr parts = 100) ∧
    (∀ (pr : String → Option ℚ) (parts : List String) (f : String),
        (parts.drop 3).head? = some f →
        (pyStrip f).isEmpty = true ∨ pr (pyStrip f) = none →
        parse_sell pr parts = 100) ∧
    (∀ (da : String → Option String) (pr : String → Option ℚ) (n : Nat)
        (line : String) (w : WalletInfo),
        parse_wallet_line da pr n line = .loaded w →
        w.purchase_amount = parse_purchase pr (pySplit ';' (pyStrip line)) ∧
        w.sell_percentage = parse_sell pr (pySplit ';' (pyStrip line)) ∧
        w.line_num = n) ∧
    (∀ (da : String → Option String) (pr : String → Option ℚ)
        (lines : List String) (w : WalletInfo),
        w ∈ load_wallets_from_file da pr lines ↔
        ∃ p ∈ List.enumFrom 1 lines,
          parse_wallet_line da pr p.1 p.2 = .loaded w) ∧
    (∀ (da : String → Option String) (pr : String → Option ℚ)
        (lines : List String),
        List.Sorted (· < ·)
          ((load_wallets_from_file da pr lines).map
            (fun w => w.line_num))) := by
  refine ⟨?_, ?_, ?_, ?_, ?_, ?_, ?_,
    fun da pr n line w h => parse_wallet_line_loaded_fields da pr n line w h,
    ?_, fun da pr lines => load_sorted_from da pr lines 1⟩
  · intro da pr n line h
    rcases h with h | h <;> simp [parse_wallet_line, h]
  · intro da pr n line h1 h2 h3
    simp [parse_wallet_line, h1, h2, h3]
  · intro da pr n line h1 h2 h3 h4
    simp only [parse_wallet_line]
    rw [if_neg (by simp [h1, h2]), if_neg h3, h4]
  · intro pr parts h
    simp [parse_purchase, h]
  · intro pr parts f h hf
    rcases hf with hf | hf <;> simp [parse_purchase, h, hf]
  · intro pr parts h
    simp [parse_sell, h]
  · intro pr parts f h hf
    rcases hf with hf | hf <;> simp [parse_sell, h, hf]
  · intro da pr lines w
    simp only [load_wallets_from_file, List.mem_filterMap,
      line_record_eq_some_iff]

def c9_da : String → Option String :=
  fun s => if s = "0xKEY" then some "0xA" else none

def c9_pr : String → Option ℚ := fun _ => none

theorem c9_witness :
    parse_wallet_line c9_da c9_pr 3 "  # comment" = .ignored ∧
    parse_purchase c9_pr (pySplit ';' "0xA;0xKEY;xyz;foo") = 0 ∧
    parse_sell c9_pr (pySplit ';' "0xA;0xKEY;xyz;foo") = 100 :=
  ⟨c9_wallet_loader_behaviour.1 c9_da c9_pr 3 "  # comment"
      (Or.inr (by decide)),
   c9_wallet_loader_behaviour.2.2.2.2.1 c9_pr
      (pySplit ';' "0xA;0xKEY;xyz;foo") "xyz" (by decide) (Or.inr rfl),
   c9_wallet_loader_behaviour.2.2.2.2.2.2.1 c9_pr
      (pySplit ';' "0xA;0xKEY;xyz;foo") "foo" (by decide) (Or.inr rfl)⟩

end FourMeme
